import Mathlib

/-! Booz AHRS float LKF (sw/airborne/booz/ahrs/booz_ahrs_float_lkf.c)

A shallow embedding of the indirect (error-state) Kalman filter of
`booz_ahrs_float_lkf.c`.  The C `float`s are read as elements of an arbitrary
linearly ordered field `α` (exact arithmetic); the file-scope variables of the C
file become the fields of one record `Bafl α`, and every C function becomes a
function from the record before the call to the record after it.

The sensor sample that a C function reads from `booz_imu` and converts with
`RATES_FLOAT_OF_BFP` / `ACCELS_FLOAT_OF_BFP` / `MAGS_FLOAT_OF_BFP` is passed to the
Lean function as the already converted value.
-/

namespace BoozAhrsLkf

/-! ## Data model -/

/-- Quaternion with scalar part `qi` first (`struct FloatQuat`). -/
@[ext] structure FloatQuat (α : Type) where
  qi : α
  qx : α
  qy : α
  qz : α
  deriving DecidableEq

/-- Body rates (`struct FloatRates`). -/
@[ext] structure FloatRates (α : Type) where
  p : α
  q : α
  r : α
  deriving DecidableEq

/-- Three-vector (`struct FloatVect3`). -/
@[ext] structure FloatVect3 (α : Type) where
  x : α
  y : α
  z : α
  deriving DecidableEq

/-- Rotation matrix (`struct FloatRMat`); `RMAT_ELMT(m, row, col)` is `m row col`. -/
abbrev FloatRMat (α : Type) := Matrix (Fin 3) (Fin 3) α

/-- The two values of `booz_ahrs.status`. -/
inductive AhrsStatus where
  | BOOZ_AHRS_UNINIT
  | BOOZ_AHRS_RUNNING
  deriving DecidableEq

/-- The routines that the filter takes from `math/pprz_algebra_float.h` and from the C
library and whose text is not in `booz_ahrs_float_lkf.c`.  They are parameters of the
embedding: every theorem that quantifies over a `FloatAlgebra` holds whatever these
routines compute. -/
structure FloatAlgebra (α : Type) where
  /-- `FLOAT_QUAT_DERIVATIVE_LAGRANGE(_qd, _r, _q)`: the value stored in `_qd`. -/
  FLOAT_QUAT_DERIVATIVE_LAGRANGE : FloatRates α → FloatQuat α → FloatQuat α
  /-- `FLOAT_RMAT_OF_QUAT(_rm, _q)`: the value stored in `_rm`. -/
  FLOAT_RMAT_OF_QUAT : FloatQuat α → FloatRMat α
  /-- `FLOAT_QUAT_COMP(_a2c, _a2b, _b2c)`: the value stored in `_a2c`. -/
  FLOAT_QUAT_COMP : FloatQuat α → FloatQuat α → FloatQuat α
  /-- The C library `sqrtf`. -/
  sqrtf : α → α

/-- The file-scope variables of `booz_ahrs_float_lkf.c` that the filter reads or
writes (`bafl_eulers`, `bafl_F` and `bafl_qom` are declared but never used, and of
`booz_ahrs` only `status` is read back; they are left out). -/
structure Bafl (α : Type) where
  status : AhrsStatus
  bafl_quat : FloatQuat α
  bafl_bias : FloatRates α
  bafl_quat_err : FloatQuat α
  bafl_bias_err : FloatRates α
  bafl_rates : FloatRates α
  bafl_dcm : FloatRMat α
  bafl_qdot : FloatQuat α
  bafl_P : Matrix (Fin 6) (Fin 6) α
  bafl_X : Fin 6 → α
  bafl_T : Matrix (Fin 6) (Fin 6) α
  bafl_Pprio : Matrix (Fin 6) (Fin 6) α
  bafl_tempP : Matrix (Fin 6) (Fin 6) α
  bafl_K : Matrix (Fin 6) (Fin 3) α
  bafl_tempK : Matrix (Fin 6) (Fin 3) α
  bafl_S : Matrix (Fin 3) (Fin 3) α
  bafl_tempS : Matrix (Fin 3) (Fin 6) α
  bafl_invS : Matrix (Fin 3) (Fin 3) α
  bafl_y : FloatVect3 α
  bafl_H : Matrix (Fin 3) (Fin 6) α
  bafl_accel : FloatVect3 α
  bafl_mag : FloatVect3 α

section Defs

variable {α : Type} [LinearOrderedField α]

/-! ## Constants -/

/-- The macro `bafl_g 9.81`. -/
def bafl_g : α := 981 / 100

/-- The macro `bafl_Q_gyro 8e-03`. -/
def bafl_Q_gyro : α := 8 / 1000

/-- The macro `BAFL_R_ACCEL 5.0 * 5.0`. -/
def BAFL_R_ACCEL : α := 5 * 5

/-- The macro `BAFL_R_MAG 300. * 300.`. -/
def BAFL_R_MAG : α := 300 * 300

/-- The macro `BAFL_DT (1./512.)` (the default of the `#ifndef`). -/
def BAFL_DT : α := 1 / 512

/-! ## Loop helpers and the elementwise macros -/

/-- The C loop `for (k ...) acc += term k` over the indices `ks`, in order. -/
def accum {ι : Type} (acc : α) (term : ι → α) (ks : List ι) : α :=
  ks.foldl (fun a k => a + term k) acc

/-- The C loop `for (k ...) acc -= term k` over the indices `ks`, in order. -/
def deccum {ι : Type} (acc : α) (term : ι → α) (ks : List ι) : α :=
  ks.foldl (fun a k => a - term k) acc

/-- Modelled from the spec: `FLOAT_QUAT_ZERO` of `pprz_algebra_float.h`, "set quaternion
to identity". -/
def FLOAT_QUAT_ZERO : FloatQuat α := ⟨1, 0, 0, 0⟩

/-- Modelled from the spec: `RATES_SUB(_a, _b)` of `pprz_algebra.h`, "unbiased rate =
gyro − bias", componentwise `_a -= _b`. -/
def RATES_SUB (a b : FloatRates α) : FloatRates α := ⟨a.p - b.p, a.q - b.q, a.r - b.r⟩

/-- Modelled from the spec: `QUAT_SMUL(_qo, _qi, _s)` / `FLOAT_QUAT_SMUL`, the quaternion
scaled componentwise by `_s` ("derivative·dt", "renormalize by 1/√(1+|v|²/4)"). -/
def QUAT_SMUL (q : FloatQuat α) (s : α) : FloatQuat α := ⟨q.qi * s, q.qx * s, q.qy * s, q.qz * s⟩

/-- Modelled from the spec: `QUAT_ADD(_qo, _qi)`, componentwise `_qo += _qi`
("quaternion += derivative·dt"). -/
def QUAT_ADD (a b : FloatQuat α) : FloatQuat α := ⟨a.qi + b.qi, a.qx + b.qx, a.qy + b.qy, a.qz + b.qz⟩

/-! ## `booz_ahrs_init` and `booz_ahrs_align` -/

/-- The values of the file-scope variables at program start: C zero-initialises
objects of static storage duration.  The encoding of `booz_ahrs.status` is in
`booz_ahrs.h`; the status at program start is taken as `BOOZ_AHRS_UNINIT`, which
`booz_ahrs_init` sets in any case. -/
def powerOn : Bafl α where
  status := AhrsStatus.BOOZ_AHRS_UNINIT
  bafl_quat := ⟨0, 0, 0, 0⟩
  bafl_bias := ⟨0, 0, 0⟩
  bafl_quat_err := ⟨0, 0, 0, 0⟩
  bafl_bias_err := ⟨0, 0, 0⟩
  bafl_rates := ⟨0, 0, 0⟩
  bafl_dcm := fun _ _ => 0
  bafl_qdot := ⟨0, 0, 0, 0⟩
  bafl_P := fun _ _ => 0
  bafl_X := fun _ => 0
  bafl_T := fun _ _ => 0
  bafl_Pprio := fun _ _ => 0
  bafl_tempP := fun _ _ => 0
  bafl_K := fun _ _ => 0
  bafl_tempK := fun _ _ => 0
  bafl_S := fun _ _ => 0
  bafl_tempS := fun _ _ => 0
  bafl_invS := fun _ _ => 0
  bafl_y := ⟨0, 0, 0⟩
  bafl_H := fun _ _ => 0
  bafl_accel := ⟨0, 0, 0⟩
  bafl_mag := ⟨0, 0, 0⟩

/-- `booz_ahrs_init` (lines 130-155): for every `i` row `i` of `T` and column `i` of `H`
are zeroed and then `T[i][i] = 1`; the quaternion is set by `FLOAT_QUAT_ZERO`; the status
becomes `BOOZ_AHRS_UNINIT`.  Nothing else of the filter is written. -/
def booz_ahrs_init (s : Bafl α) : Bafl α :=
  { s with
    bafl_T := fun i k => if i = k then 1 else 0
    bafl_H := fun _ _ => 0
    bafl_quat := FLOAT_QUAT_ZERO
    status := AhrsStatus.BOOZ_AHRS_UNINIT }

/-- `booz_ahrs_align` (lines 157-160); `lp_gyro` is the converted
`booz_ahrs_aligner.lp_gyro`. -/
def booz_ahrs_align (s : Bafl α) (lp_gyro : FloatRates α) : Bafl α :=
  { s with
    bafl_bias := lp_gyro
    status := AhrsStatus.BOOZ_AHRS_RUNNING }

/-! ## `booz_ahrs_propagate` -/

/-- Lines 226-230: `bafl_T[i][j+3] = - RMAT_ELMT(bafl_dcm, j, i)` for `i, j < 3`; the
other entries of `T` keep their value. -/
def propagate_T (dcm : FloatRMat α) (T : Matrix (Fin 6) (Fin 6) α) : Matrix (Fin 6) (Fin 6) α :=
  fun a b =>
    if h : a.val < 3 ∧ 3 ≤ b.val then
      - dcm ⟨b.val - 3, by omega⟩ ⟨a.val, h.1⟩
    else T a b

/-- Lines 237-244: `temp = T * P`. -/
def propagate_tempP (T P : Matrix (Fin 6) (Fin 6) α) : Matrix (Fin 6) (Fin 6) α :=
  fun i j => accum 0 (fun k => T i k * P k j) [0, 1, 2, 3, 4, 5]

/-- Lines 247-258: `P = temp * T_T + Q`. -/
def propagate_P (tempP T : Matrix (Fin 6) (Fin 6) α) : Matrix (Fin 6) (Fin 6) α :=
  fun i j =>
    accum (if 3 ≤ i.val ∧ i = j then bafl_Q_gyro else 0) (fun k => tempP i k * T j k)
      [0, 1, 2, 3, 4, 5]

/-- `booz_ahrs_propagate` (lines 180-260); `gyro` is the converted `booz_imu.gyro`. -/
def booz_ahrs_propagate (L : FloatAlgebra α) (s : Bafl α) (gyro : FloatRates α) : Bafl α :=
  let rates := RATES_SUB gyro s.bafl_bias
  let qdot := QUAT_SMUL (L.FLOAT_QUAT_DERIVATIVE_LAGRANGE rates s.bafl_quat) BAFL_DT
  let quat := QUAT_ADD s.bafl_quat qdot
  let dcm := L.FLOAT_RMAT_OF_QUAT quat
  let T := propagate_T dcm s.bafl_T
  let tempP := propagate_tempP T s.bafl_P
  { s with
    bafl_rates := rates
    bafl_qdot := qdot
    bafl_quat := quat
    bafl_dcm := dcm
    bafl_T := T
    bafl_tempP := tempP
    bafl_P := propagate_P tempP T }

/-! ## `booz_ahrs_update_accel` and `booz_ahrs_update_mag`

The bodies of the two functions (lines 263-482 and 487-705) are the same text except
for the sample they store (`bafl_accel` / `bafl_mag`) and the constant written on the
diagonal of `S` (`BAFL_R_ACCEL` / `BAFL_R_MAG`).  The blocks below are that text. -/

/-- Lines 277-282: columns 0 and 1 of `H` are written from `dcm`; "rest is zero" only in
so far as the other columns keep the value they had. -/
def update_H (dcm : FloatRMat α) (H : Matrix (Fin 3) (Fin 6) α) : Matrix (Fin 3) (Fin 6) α :=
  fun i j =>
    if j = 0 then - dcm i 1 * bafl_g
    else if j = 1 then dcm i 0 * bafl_g
    else H i j

/-- Lines 305-312: `temp_S(3x6) = H(3x6) * P_prio(6x6)`, summed over `k = 0, 1, 2`. -/
def update_tempS (H : Matrix (Fin 3) (Fin 6) α) (Pprio : Matrix (Fin 6) (Fin 6) α) :
    Matrix (Fin 3) (Fin 6) α :=
  fun i j => accum (H i 0 * Pprio 0 j) (fun k => H i k * Pprio k j) [1, 2]

/-- Lines 319-330: `S(3x3) = temp_S(3x6) * HT(6x3) + R(3x3)`, summed over `k = 0, 1, 2`;
`R` is the constant written on the diagonal. -/
def update_S (R : α) (tempS H : Matrix (Fin 3) (Fin 6) α) : Matrix (Fin 3) (Fin 3) α :=
  fun i j => accum (if i.val < 3 ∧ i = j then R else 0) (fun k => tempS i k * H j k) [0, 1, 2]

/-- Lines 334-337: `detS`. -/
def update_detS (S : Matrix (Fin 3) (Fin 3) α) : α :=
  S 0 0 * (S 2 2 * S 1 1 - S 2 1 * S 1 2) -
  S 1 0 * (S 2 2 * S 0 1 - S 2 1 * S 0 2) +
  S 2 0 * (S 1 2 * S 0 1 - S 1 1 * S 0 2)

/-- Lines 340-350: the nine assignments to `bafl_invS` inside `if (detS != 0.)`. -/
def update_invS_entries (S : Matrix (Fin 3) (Fin 3) α) (detS : α) : Matrix (Fin 3) (Fin 3) α :=
  !![(S 2 2 * S 1 1 - S 2 1 * S 1 2) / detS,
     (S 2 1 * S 0 2 - S 2 2 * S 0 1) / detS,
     (S 1 2 * S 0 1 - S 1 1 * S 0 2) / detS;
     (S 2 0 * S 1 2 - S 2 2 * S 1 0) / detS,
     (S 2 2 * S 0 0 - S 2 0 * S 0 2) / detS,
     (S 1 0 * S 0 2 - S 1 2 * S 0 0) / detS;
     (S 2 1 * S 1 0 - S 2 0 * S 1 1) / detS,
     (S 2 1 * S 0 0 - S 2 0 * S 0 1) / detS,
     (S 1 1 * S 0 0 - S 1 0 * S 0 1) / detS]

/-- Lines 334-351: `bafl_invS` after the block; it keeps its old value when `detS` is
zero. -/
def update_invS (S invS : Matrix (Fin 3) (Fin 3) α) : Matrix (Fin 3) (Fin 3) α :=
  if update_detS S ≠ 0 then update_invS_entries S (update_detS S) else invS

/-- Lines 357-364: `temp_K(6x3) = P_prio(6x6) * HT(6x3)`; the loop over `j` starts at 1, so
column 0 of `bafl_tempK` keeps its old value. -/
def update_tempK (Pprio : Matrix (Fin 6) (Fin 6) α) (H : Matrix (Fin 3) (Fin 6) α)
    (tempK : Matrix (Fin 6) (Fin 3) α) : Matrix (Fin 6) (Fin 3) α :=
  fun i j =>
    if j = 0 then tempK i j
    else accum (Pprio i 0 * H j 0) (fun k => Pprio i k * H j k) [1, 2]

/-- Lines 368-375: `K(6x3) = temp_K(6x3) * invS(3x3)`; the loop over `j` starts at 1, so
column 0 of `bafl_K` keeps its old value. -/
def update_K (tempK : Matrix (Fin 6) (Fin 3) α) (invS : Matrix (Fin 3) (Fin 3) α)
    (K : Matrix (Fin 6) (Fin 3) α) : Matrix (Fin 6) (Fin 3) α :=
  fun i j =>
    if j = 0 then K i j
    else accum (tempK i 0 * invS 0 j) (fun k => tempK i k * invS k j) [1, 2]

/-- Lines 392-394: the innovation `y`. -/
def update_y (dcm : FloatRMat α) (accel : FloatVect3 α) : FloatVect3 α :=
  ⟨- dcm 0 2 * bafl_g - accel.x, - dcm 1 2 * bafl_g - accel.y, - dcm 2 2 * bafl_g - accel.z⟩

/-- Lines 398-402: `X(6) = K(6x3) * y(3)`. -/
def update_X (K : Matrix (Fin 6) (Fin 3) α) (y : FloatVect3 α) : Fin 6 → α :=
  fun i => K i 0 * y.x + K i 1 * y.y + K i 2 * y.z

/-- Lines 416-430: `temp(6x6) = I(6x6) - K(6x3)*H(3x6)`, the product only for `j < 3`. -/
def update_tempP (K : Matrix (Fin 6) (Fin 3) α) (H : Matrix (Fin 3) (Fin 6) α) :
    Matrix (Fin 6) (Fin 6) α :=
  fun i j =>
    if j.val < 3 then deccum (if i = j then 1 else 0) (fun k => K i k * H k j) [0, 1, 2]
    else if i = j then 1 else 0

/-- Lines 434-441: `P(6x6) = temp(6x6) * P_prio(6x6)`. -/
def update_P (tempP Pprio : Matrix (Fin 6) (Fin 6) α) : Matrix (Fin 6) (Fin 6) α :=
  fun i j => accum (tempP i 0 * Pprio 0 j) (fun k => tempP i k * Pprio k j) [1, 2, 3, 4, 5]

/-- Line 454: `q_sq`; the third square is that of `bafl_X[1]`, as in the source. -/
def update_q_sq (X : Fin 6 → α) : α :=
  (X 0 * X 0 + X 1 * X 1 + X 1 * X 1) / 4

/-- Lines 453-467: the error quaternion `bafl_quat_err` built from `bafl_X`. -/
def update_quat_err (sqrtf : α → α) (X : Fin 6 → α) : FloatQuat α :=
  if update_q_sq X > 1 then
    QUAT_SMUL ⟨1, X 0 / 2, X 1 / 2, X 2 / 2⟩ (1 / sqrtf (1 + update_q_sq X))
  else
    ⟨sqrtf (1 - update_q_sq X), X 0 / 2, X 1 / 2, X 2 / 2⟩

/-- Lines 269-480 (and 493-704): everything after the sample has been stored.  `R` is
the constant written on the diagonal of `S`. -/
def bafl_update (L : FloatAlgebra α) (R : α) (s : Bafl α) : Bafl α :=
  let Pprio := s.bafl_P
  let H := update_H s.bafl_dcm s.bafl_H
  let tempS := update_tempS H Pprio
  let S := update_S R tempS H
  let invS := update_invS S s.bafl_invS
  let tempK := update_tempK Pprio H s.bafl_tempK
  let K := update_K tempK invS s.bafl_K
  let y := update_y s.bafl_dcm s.bafl_accel
  let X := update_X K y
  let tempP := update_tempP K H
  let quat_err := update_quat_err L.sqrtf X
  let quat := L.FLOAT_QUAT_COMP s.bafl_quat quat_err
  let bias_err : FloatRates α := ⟨X 3, X 4, X 5⟩
  { s with
    bafl_Pprio := Pprio
    bafl_H := H
    bafl_tempS := tempS
    bafl_S := S
    bafl_invS := invS
    bafl_tempK := tempK
    bafl_K := K
    bafl_y := y
    bafl_X := X
    bafl_tempP := tempP
    bafl_P := update_P tempP Pprio
    bafl_quat_err := quat_err
    bafl_quat := quat
    bafl_bias_err := bias_err
    bafl_bias := RATES_SUB s.bafl_bias bias_err
    bafl_dcm := L.FLOAT_RMAT_OF_QUAT quat }

/-- `booz_ahrs_update_accel` (lines 263-482); `accel` is the converted `booz_imu.accel`. -/
def booz_ahrs_update_accel (L : FloatAlgebra α) (s : Bafl α) (accel : FloatVect3 α) : Bafl α :=
  bafl_update L BAFL_R_ACCEL { s with bafl_accel := accel }

/-- `booz_ahrs_update_mag` (lines 487-705); `mag` is the converted `booz_imu.mag`. -/
def booz_ahrs_update_mag (L : FloatAlgebra α) (s : Bafl α) (mag : FloatVect3 α) : Bafl α :=
  bafl_update L BAFL_R_MAG { s with bafl_mag := mag }

/-! ## The spec's reading of the algebra routines -/

/-- Modelled from the spec: the macro `FLOAT_QUAT_DERIVATIVE_LAGRANGE` of
`math/pprz_algebra_float.h` is not in the source file; this is "quaternion derivative =
½·Ω(rate)·quaternion, where Ω is the 4×4 skew-symmetric rate matrix", with Ω as in the
comment of lines 169-177. -/
def quat_derivative_spec (r : FloatRates α) (q : FloatQuat α) : FloatQuat α :=
  ⟨1 / 2 * (0 * q.qi + (- r.p) * q.qx + (- r.q) * q.qy + (- r.r) * q.qz),
   1 / 2 * (r.p * q.qi + 0 * q.qx + r.r * q.qy + (- r.q) * q.qz),
   1 / 2 * (r.q * q.qi + (- r.r) * q.qx + 0 * q.qy + r.p * q.qz),
   1 / 2 * (r.r * q.qi + r.q * q.qx + (- r.p) * q.qy + 0 * q.qz)⟩

/-- Modelled from the spec: the macro `FLOAT_RMAT_OF_QUAT` of `math/pprz_algebra_float.h`
is not in the source file; this is the "rotation matrix ... derived deterministically from
quaternion", the navigation-to-body matrix `Cnb` of the comment of line 390. -/
def rmat_of_quat_spec (q : FloatQuat α) : FloatRMat α :=
  !![1 - 2 * (q.qy * q.qy + q.qz * q.qz), 2 * (q.qx * q.qy + q.qi * q.qz),
       2 * (q.qx * q.qz - q.qi * q.qy);
     2 * (q.qx * q.qy - q.qi * q.qz), 1 - 2 * (q.qx * q.qx + q.qz * q.qz),
       2 * (q.qy * q.qz + q.qi * q.qx);
     2 * (q.qx * q.qz + q.qi * q.qy), 2 * (q.qy * q.qz - q.qi * q.qx),
       1 - 2 * (q.qx * q.qx + q.qy * q.qy)]

/-- Modelled from the spec: the macro `FLOAT_QUAT_COMP` of `math/pprz_algebra_float.h` is
not in the source file; this is "quaternion multiplication (current ⊗ error)". -/
def quat_comp_spec (a b : FloatQuat α) : FloatQuat α :=
  ⟨a.qi * b.qi - a.qx * b.qx - a.qy * b.qy - a.qz * b.qz,
   a.qi * b.qx + a.qx * b.qi + a.qy * b.qz - a.qz * b.qy,
   a.qi * b.qy - a.qx * b.qz + a.qy * b.qi + a.qz * b.qx,
   a.qi * b.qz + a.qx * b.qy - a.qy * b.qx + a.qz * b.qi⟩

/-- Modelled from the spec: the algebra routines as the spec describes them, around a
given square-root function. -/
def specAlgebra (sqrtf : α → α) : FloatAlgebra α where
  FLOAT_QUAT_DERIVATIVE_LAGRANGE := quat_derivative_spec
  FLOAT_RMAT_OF_QUAT := rmat_of_quat_spec
  FLOAT_QUAT_COMP := quat_comp_spec
  sqrtf := sqrtf

end Defs

/-! ## Sequences of calls -/

/-- One call of the filter after `booz_ahrs_init`, with the converted sample it reads. -/
inductive Call (α : Type) where
  | align (lp_gyro : FloatRates α)
  | propagate (gyro : FloatRates α)
  | update_accel (accel : FloatVect3 α)
  | update_mag (mag : FloatVect3 α)

section Sequences

variable {α : Type} [LinearOrderedField α]

/-- The state after one call. -/
def call (L : FloatAlgebra α) (s : Bafl α) : Call α → Bafl α
  | Call.align lp_gyro => booz_ahrs_align s lp_gyro
  | Call.propagate gyro => booz_ahrs_propagate L s gyro
  | Call.update_accel accel => booz_ahrs_update_accel L s accel
  | Call.update_mag mag => booz_ahrs_update_mag L s mag

/-- The state after a finite sequence of calls, made in order and without overlap. -/
def run (L : FloatAlgebra α) (s : Bafl α) (cs : List (Call α)) : Bafl α :=
  cs.foldl (call L) s

end Sequences

/-! ## Concrete runs used for evaluation -/

/-- The largest `k` not above the first argument with `k * k` not above the second. -/
def isqrt_below : Nat → Nat → Nat
  | 0, _ => 0
  | k + 1, n => if (k + 1) * (k + 1) ≤ n then k + 1 else isqrt_below k n

/-- Modelled from the spec: a stand-in for the C library `sqrtf` on the rationals, used
only to evaluate the filter at concrete inputs: the exact root where numerator and
denominator are perfect squares, each rounded down elsewhere. -/
def sqrtf_rat (x : ℚ) : ℚ :=
  (isqrt_below x.num.toNat x.num.toNat : ℚ) / (isqrt_below x.den x.den : ℚ)

/-- The spec's algebra routines over the rationals. -/
def ratAlgebra : FloatAlgebra ℚ := specAlgebra sqrtf_rat

/-- Program start followed by `booz_ahrs_init`. -/
def afterInit : Bafl ℚ := booz_ahrs_init powerOn

/-- `init`, then two `propagate` calls with the gyro at rest. -/
def runAtRest : Bafl ℚ :=
  booz_ahrs_propagate ratAlgebra (booz_ahrs_propagate ratAlgebra afterInit ⟨0, 0, 0⟩) ⟨0, 0, 0⟩

/-- `init`, one `propagate` with the rate `(1024, 1024, 0)` rad/s, which takes the
quaternion to `(1, 1, 1, 0)`, and one `propagate` with the gyro at rest. -/
def runTurned : Bafl ℚ :=
  booz_ahrs_propagate ratAlgebra
    (booz_ahrs_propagate ratAlgebra afterInit ⟨1024, 1024, 0⟩) ⟨0, 0, 0⟩

/-- The accelerometer sample of a vehicle at rest under the sign convention of
lines 390-394, `(0, 0, -g)`. -/
def accelAtRest : FloatVect3 ℚ := ⟨0, 0, -981 / 100⟩

/-- A state whose innovation covariance is singular: identity attitude, the variance
`P[0][0] = -25 / g²`, the cross term `P[0][3] = P[3][0] = 1/100`, and the identity left
in `bafl_invS`. -/
def singularState : Bafl ℚ :=
  { (powerOn : Bafl ℚ) with
    bafl_quat := ⟨1, 0, 0, 0⟩
    bafl_dcm := 1
    bafl_T := 1
    bafl_invS := 1
    bafl_P := fun i j =>
      if i = 0 ∧ j = 0 then -250000 / 962361
      else if (i = 0 ∧ j = 3) ∨ (i = 3 ∧ j = 0) then 1 / 100
      else 0 }

/-- The state `singularState` with `bafl_invS` all zero, as at program start. -/
def singularFresh : Bafl ℚ := { singularState with bafl_invS := 0 }

/-- A sample that gives the innovation `y = (0, 1, 0)` at identity attitude. -/
def accelTilted : FloatVect3 ℚ := ⟨0, -1, -981 / 100⟩

/-- The run `runAtRest` followed by one `update_accel` with the sample `accelAtRest`, which
is then the stored `bafl_accel`. -/
def runCorrected : Bafl ℚ := booz_ahrs_update_accel ratAlgebra runAtRest accelAtRest

/-- A magnetometer sample, the field vector of the macro `bafl_h {236.0, -2.0, 396.0}`. -/
def magSample : FloatVect3 ℚ := ⟨236, -2, 396⟩

/-- The sample `accelAtRest` with the x component changed to 7. -/
def accelPushed : FloatVect3 ℚ := ⟨7, 0, -981 / 100⟩

/-! ## Matrices of the specification -/

section SpecMatrices

variable {α : Type} [LinearOrderedField α]

/-- The process noise `Qd = diag(0, 0, 0, Q, Q, Q)` with `Q = bafl_Q_gyro`. -/
def propagate_Qd : Matrix (Fin 6) (Fin 6) α :=
  Matrix.diagonal (fun i => if 3 ≤ i.val then bafl_Q_gyro else 0)

/-- The squared norm `qi² + qx² + qy² + qz²` of a quaternion. -/
def quat_norm_sq (q : FloatQuat α) : α :=
  q.qi * q.qi + q.qx * q.qx + q.qy * q.qy + q.qz * q.qz

end SpecMatrices

/-! ## Theorems -/

section Theorems

variable {α : Type} [LinearOrderedField α]

/-- The loop of lines 237-244 computes the matrix product `T * P`. -/
theorem propagate_tempP_eq_mul (T P : Matrix (Fin 6) (Fin 6) α) :
    propagate_tempP T P = T * P := by
  ext i j
  simp only [propagate_tempP, accum, List.foldl, Matrix.mul_apply, Fin.sum_univ_six]
  ring

/-- The loop of lines 247-258 computes `temp * Tᵀ + Qd`. -/
theorem propagate_P_eq_mul (tempP T : Matrix (Fin 6) (Fin 6) α) :
    propagate_P tempP T = tempP * Matrix.transpose T + propagate_Qd := by
  ext i j
  simp only [propagate_P, accum, List.foldl, Matrix.add_apply, Matrix.mul_apply,
    Fin.sum_univ_six, Matrix.transpose_apply, propagate_Qd]
  by_cases h : i = j
  · subst h
    by_cases h3 : 3 ≤ i.val
    · simp only [h3, and_self, if_true, Matrix.diagonal_apply_eq]
      ring
    · simp only [h3, false_and, if_false, Matrix.diagonal_apply_eq]
      ring
  · simp only [h, and_false, if_false, Matrix.diagonal_apply_ne _ h]
    ring

/-! ### What each call stores, field by field -/

theorem propagate_qdot_field (L : FloatAlgebra α) (s : Bafl α) (gyro : FloatRates α) :
    (booz_ahrs_propagate L s gyro).bafl_qdot =
      QUAT_SMUL (L.FLOAT_QUAT_DERIVATIVE_LAGRANGE (RATES_SUB gyro s.bafl_bias) s.bafl_quat)
        BAFL_DT := rfl

theorem propagate_quat_field (L : FloatAlgebra α) (s : Bafl α) (gyro : FloatRates α) :
    (booz_ahrs_propagate L s gyro).bafl_quat =
      QUAT_ADD s.bafl_quat (booz_ahrs_propagate L s gyro).bafl_qdot := rfl

theorem propagate_dcm_field (L : FloatAlgebra α) (s : Bafl α) (gyro : FloatRates α) :
    (booz_ahrs_propagate L s gyro).bafl_dcm =
      L.FLOAT_RMAT_OF_QUAT (booz_ahrs_propagate L s gyro).bafl_quat := rfl

theorem propagate_T_field (L : FloatAlgebra α) (s : Bafl α) (gyro : FloatRates α) :
    (booz_ahrs_propagate L s gyro).bafl_T =
      propagate_T (booz_ahrs_propagate L s gyro).bafl_dcm s.bafl_T := rfl

theorem propagate_P_field (L : FloatAlgebra α) (s : Bafl α) (gyro : FloatRates α) :
    (booz_ahrs_propagate L s gyro).bafl_P =
      propagate_P (propagate_tempP (booz_ahrs_propagate L s gyro).bafl_T s.bafl_P)
        (booz_ahrs_propagate L s gyro).bafl_T := rfl

theorem update_accel_H (L : FloatAlgebra α) (s : Bafl α) (a : FloatVect3 α) :
    (booz_ahrs_update_accel L s a).bafl_H = update_H s.bafl_dcm s.bafl_H := rfl

theorem update_accel_Pprio (L : FloatAlgebra α) (s : Bafl α) (a : FloatVect3 α) :
    (booz_ahrs_update_accel L s a).bafl_Pprio = s.bafl_P := rfl

theorem update_accel_S (L : FloatAlgebra α) (s : Bafl α) (a : FloatVect3 α) :
    (booz_ahrs_update_accel L s a).bafl_S =
      update_S BAFL_R_ACCEL (update_tempS (booz_ahrs_update_accel L s a).bafl_H s.bafl_P)
        (booz_ahrs_update_accel L s a).bafl_H := rfl

theorem update_accel_invS (L : FloatAlgebra α) (s : Bafl α) (a : FloatVect3 α) :
    (booz_ahrs_update_accel L s a).bafl_invS =
      update_invS (booz_ahrs_update_accel L s a).bafl_S s.bafl_invS := rfl

theorem update_accel_tempK (L : FloatAlgebra α) (s : Bafl α) (a : FloatVect3 α) :
    (booz_ahrs_update_accel L s a).bafl_tempK =
      update_tempK s.bafl_P (booz_ahrs_update_accel L s a).bafl_H s.bafl_tempK := rfl

theorem update_accel_K (L : FloatAlgebra α) (s : Bafl α) (a : FloatVect3 α) :
    (booz_ahrs_update_accel L s a).bafl_K =
      update_K (booz_ahrs_update_accel L s a).bafl_tempK (booz_ahrs_update_accel L s a).bafl_invS
        s.bafl_K := rfl

theorem update_accel_y (L : FloatAlgebra α) (s : Bafl α) (a : FloatVect3 α) :
    (booz_ahrs_update_accel L s a).bafl_y = update_y s.bafl_dcm a := rfl

theorem update_accel_X (L : FloatAlgebra α) (s : Bafl α) (a : FloatVect3 α) :
    (booz_ahrs_update_accel L s a).bafl_X =
      update_X (booz_ahrs_update_accel L s a).bafl_K (booz_ahrs_update_accel L s a).bafl_y := rfl

theorem update_accel_P (L : FloatAlgebra α) (s : Bafl α) (a : FloatVect3 α) :
    (booz_ahrs_update_accel L s a).bafl_P =
      update_P (update_tempP (booz_ahrs_update_accel L s a).bafl_K
        (booz_ahrs_update_accel L s a).bafl_H) s.bafl_P := rfl

theorem update_accel_quat_err (L : FloatAlgebra α) (s : Bafl α) (a : FloatVect3 α) :
    (booz_ahrs_update_accel L s a).bafl_quat_err =
      update_quat_err L.sqrtf (booz_ahrs_update_accel L s a).bafl_X := rfl

theorem update_accel_quat (L : FloatAlgebra α) (s : Bafl α) (a : FloatVect3 α) :
    (booz_ahrs_update_accel L s a).bafl_quat =
      L.FLOAT_QUAT_COMP s.bafl_quat (booz_ahrs_update_accel L s a).bafl_quat_err := rfl

theorem update_accel_bias (L : FloatAlgebra α) (s : Bafl α) (a : FloatVect3 α) :
    (booz_ahrs_update_accel L s a).bafl_bias =
      RATES_SUB s.bafl_bias ⟨(booz_ahrs_update_accel L s a).bafl_X 3,
        (booz_ahrs_update_accel L s a).bafl_X 4, (booz_ahrs_update_accel L s a).bafl_X 5⟩ := rfl

theorem update_accel_dcm (L : FloatAlgebra α) (s : Bafl α) (a : FloatVect3 α) :
    (booz_ahrs_update_accel L s a).bafl_dcm =
      L.FLOAT_RMAT_OF_QUAT (booz_ahrs_update_accel L s a).bafl_quat := rfl

theorem update_mag_H (L : FloatAlgebra α) (s : Bafl α) (m : FloatVect3 α) :
    (booz_ahrs_update_mag L s m).bafl_H = update_H s.bafl_dcm s.bafl_H := rfl

theorem update_mag_S (L : FloatAlgebra α) (s : Bafl α) (m : FloatVect3 α) :
    (booz_ahrs_update_mag L s m).bafl_S =
      update_S BAFL_R_MAG (update_tempS (booz_ahrs_update_mag L s m).bafl_H s.bafl_P)
        (booz_ahrs_update_mag L s m).bafl_H := rfl

theorem update_mag_y (L : FloatAlgebra α) (s : Bafl α) (m : FloatVect3 α) :
    (booz_ahrs_update_mag L s m).bafl_y = update_y s.bafl_dcm s.bafl_accel := rfl

theorem update_mag_K (L : FloatAlgebra α) (s : Bafl α) (m : FloatVect3 α) :
    (booz_ahrs_update_mag L s m).bafl_K =
      update_K (booz_ahrs_update_mag L s m).bafl_tempK (booz_ahrs_update_mag L s m).bafl_invS
        s.bafl_K := rfl

theorem update_mag_dcm (L : FloatAlgebra α) (s : Bafl α) (m : FloatVect3 α) :
    (booz_ahrs_update_mag L s m).bafl_dcm =
      L.FLOAT_RMAT_OF_QUAT (booz_ahrs_update_mag L s m).bafl_quat := rfl

/-! ### The blocks of the measurement update -/

/-- Lines 277-282 write columns 0 and 1 of `H` only. -/
theorem update_H_high_cols (dcm : FloatRMat α) (H : Matrix (Fin 3) (Fin 6) α) (i : Fin 3)
    (j : Fin 6) (hj : 2 ≤ j.val) : update_H dcm H i j = H i j := by
  have h0 : j ≠ 0 := by intro h; rw [h] at hj; simp at hj
  have h1 : j ≠ 1 := by intro h; rw [h] at hj; simp at hj
  simp [update_H, h0, h1]

/-- With columns 3-5 of `H` zero, the loops of lines 305-330, which sum over the first
three indices only, compute the full product `H·P·Hᵗ + R·I₃`. -/
theorem update_S_eq_mul (R : α) (H : Matrix (Fin 3) (Fin 6) α) (P : Matrix (Fin 6) (Fin 6) α)
    (hH : ∀ i j, 3 ≤ j.val → H i j = 0) :
    update_S R (update_tempS H P) H =
      H * P * Matrix.transpose H + R • (1 : Matrix (Fin 3) (Fin 3) α) := by
  have h3 : ∀ i, H i 3 = 0 := fun i => hH i 3 (by decide)
  have h4 : ∀ i, H i 4 = 0 := fun i => hH i 4 (by decide)
  have h5 : ∀ i, H i 5 = 0 := fun i => hH i 5 (by decide)
  ext i j
  simp only [update_S, update_tempS, accum, List.foldl, Matrix.add_apply, Matrix.mul_apply,
    Fin.sum_univ_six, Matrix.transpose_apply, Matrix.smul_apply, Matrix.one_apply, smul_eq_mul,
    h3, h4, h5, zero_mul, mul_zero, add_zero]
  by_cases h : i = j
  · simp only [h, and_true, if_true, j.isLt, mul_one]
    ring
  · simp only [h, and_false, if_false, mul_zero]
    ring

/-- The constant on the diagonal of `S` enters additively. -/
theorem update_S_diagonal (R R2 : α) (tempS H : Matrix (Fin 3) (Fin 6) α) (i j : Fin 3) :
    update_S R2 tempS H i j = update_S R tempS H i j + if i = j then R2 - R else 0 := by
  simp only [update_S, accum, List.foldl]
  by_cases h : i = j
  · simp only [h, and_true, if_true, j.isLt]
    ring
  · simp only [h, and_false, if_false]
    ring

/-- With columns 3-5 of `H` zero, the loop of lines 416-430 computes `I₆ - K·H`. -/
theorem update_tempP_eq (K : Matrix (Fin 6) (Fin 3) α) (H : Matrix (Fin 3) (Fin 6) α)
    (hH : ∀ i j, 3 ≤ j.val → H i j = 0) : update_tempP K H = 1 - K * H := by
  ext i j
  simp only [update_tempP, deccum, List.foldl, Matrix.sub_apply, Matrix.mul_apply,
    Fin.sum_univ_three, Matrix.one_apply]
  by_cases hj : j.val < 3
  · simp only [hj, if_true]
    ring
  · have h3 : 3 ≤ j.val := not_lt.mp hj
    simp only [hj, if_false, hH _ j h3, mul_zero, add_zero, sub_zero]

/-- The loop of lines 434-441 computes the matrix product `temp * P_prio`. -/
theorem update_P_eq_mul (tempP P : Matrix (Fin 6) (Fin 6) α) : update_P tempP P = tempP * P := by
  ext i j
  simp only [update_P, accum, List.foldl, Matrix.mul_apply, Fin.sum_univ_six]

/-- The process noise `Qd` is symmetric. -/
theorem propagate_Qd_symm (i j : Fin 6) :
    (propagate_Qd : Matrix (Fin 6) (Fin 6) α) i j = propagate_Qd j i := by
  unfold propagate_Qd
  by_cases h : i = j
  · rw [h]
  · rw [Matrix.diagonal_apply_ne _ h, Matrix.diagonal_apply_ne _ (Ne.symm h)]

/-- With `detS` zero the block of lines 334-351 writes nothing. -/
theorem update_invS_of_det_zero (S invS : Matrix (Fin 3) (Fin 3) α) (h : update_detS S = 0) :
    update_invS S invS = invS := by
  simp [update_invS, h]

/-- With `detS` nonzero the block of lines 334-351 stores the nine quotients. -/
theorem update_invS_of_det_ne_zero (S invS : Matrix (Fin 3) (Fin 3) α) (h : update_detS S ≠ 0) :
    update_invS S invS = update_invS_entries S (update_detS S) := by
  simp [update_invS, h]

/-- The nine quotients of lines 340-350 with the sign of entry `[2][1]` reversed are a
right inverse of `S`: the other eight entries are those of the adjugate over `detS`. -/
theorem update_invS_entries_up_to_sign (S : Matrix (Fin 3) (Fin 3) α) (h : update_detS S ≠ 0) :
    S * (Matrix.of fun i j => if i = 2 ∧ j = 1 then - update_invS_entries S (update_detS S) i j
      else update_invS_entries S (update_detS S) i j) = 1 := by
  have hd : update_detS S = S 0 0 * (S 2 2 * S 1 1 - S 2 1 * S 1 2) -
      S 1 0 * (S 2 2 * S 0 1 - S 2 1 * S 0 2) + S 2 0 * (S 1 2 * S 0 1 - S 1 1 * S 0 2) := rfl
  generalize update_detS S = d at h hd
  ext i j
  fin_cases i <;> fin_cases j <;>
    simp [Matrix.mul_apply, Fin.sum_univ_three, update_invS_entries] <;>
    field_simp <;> (try rw [hd]) <;> ring

/-- The loop of lines 368-375 starts at `j = 1`: column 0 of `K` keeps its value. -/
theorem update_K_col_zero (tempK : Matrix (Fin 6) (Fin 3) α) (invS : Matrix (Fin 3) (Fin 3) α)
    (K : Matrix (Fin 6) (Fin 3) α) (i : Fin 6) : update_K tempK invS K i 0 = K i 0 := by
  simp [update_K]

/-- A zero `invS` and a zero column 0 of `K` give a zero gain. -/
theorem update_K_zero (tempK : Matrix (Fin 6) (Fin 3) α) (K : Matrix (Fin 6) (Fin 3) α)
    (hcol : ∀ i, K i 0 = 0) : update_K tempK 0 K = 0 := by
  ext i j
  simp only [update_K, accum, List.foldl, Matrix.zero_apply, mul_zero, add_zero]
  split_ifs with hj
  · rw [hj]; exact hcol i
  · rfl

/-- A zero gain leaves the covariance as it is. -/
theorem update_P_zero_gain (H : Matrix (Fin 3) (Fin 6) α) (P : Matrix (Fin 6) (Fin 6) α) :
    update_P (update_tempP 0 H) P = P := by
  ext i j
  simp only [update_P, update_tempP, deccum, accum, List.foldl, Matrix.zero_apply, zero_mul,
    sub_zero]
  fin_cases i <;> simp

/-- A zero error state gives the error quaternion `(sqrtf(1), 0, 0, 0)`. -/
theorem update_quat_err_zero (sqrtf : α → α) :
    update_quat_err sqrtf (0 : Fin 6 → α) = ⟨sqrtf 1, 0, 0, 0⟩ := by
  simp [update_quat_err, update_q_sq]

/-- The squared norm of the error quaternion of lines 453-467, for a square root that is
exact on the non-negative numbers: it is 1 exactly when `q_sq` agrees with `|X[0..2]|²/4`,
that is when `X[1]² = X[2]²`. -/
theorem update_quat_err_norm_sq (sqrtf : α → α) (hs : ∀ x, 0 ≤ x → sqrtf x * sqrtf x = x)
    (X : Fin 6 → α) :
    quat_norm_sq (update_quat_err sqrtf X) =
      if update_q_sq X > 1 then
        (1 + (X 0 * X 0 + X 1 * X 1 + X 2 * X 2) / 4) / (1 + update_q_sq X)
      else 1 - update_q_sq X + (X 0 * X 0 + X 1 * X 1 + X 2 * X 2) / 4 := by
  by_cases hq : update_q_sq X > 1
  · have hpos : (0 : α) < 1 + update_q_sq X := by linarith
    have hr : sqrtf (1 + update_q_sq X) * sqrtf (1 + update_q_sq X) = 1 + update_q_sq X :=
      hs _ hpos.le
    have hr0 : sqrtf (1 + update_q_sq X) ≠ 0 := by
      intro h0
      rw [h0, mul_zero] at hr
      linarith
    simp only [update_quat_err, hq, if_true, quat_norm_sq, QUAT_SMUL]
    generalize sqrtf (1 + update_q_sq X) = r at hr hr0
    rw [← hr]
    field_simp
    ring
  · have hle : (0 : α) ≤ 1 - update_q_sq X := by
      have := not_lt.mp hq
      linarith
    have hr := hs _ hle
    simp only [update_quat_err, hq, if_false, quat_norm_sq]
    rw [hr]
    ring

/-- After `init` and one `propagate` the transition matrix has `-dcm[j][i]` at
`[i][j+3]` for `i, j < 3`, ones on the diagonal and zeros elsewhere; there is no factor
`BAFL_DT`. -/
theorem propagate_T_after_init (L : FloatAlgebra α) (s : Bafl α) (gyro : FloatRates α)
    (a b : Fin 6) :
    (booz_ahrs_propagate L (booz_ahrs_init s) gyro).bafl_T a b =
      if h : a.val < 3 ∧ 3 ≤ b.val then
        - (booz_ahrs_propagate L (booz_ahrs_init s) gyro).bafl_dcm
            ⟨b.val - 3, by omega⟩ ⟨a.val, h.1⟩
      else if a = b then 1 else 0 := rfl

/-! ### Invariants of call sequences -/

/-- Every call keeps columns 2-5 of `H` zero. -/
theorem call_H_high_cols (L : FloatAlgebra α) (s : Bafl α) (c : Call α)
    (h : ∀ i j, 2 ≤ j.val → s.bafl_H i j = 0) :
    ∀ i j, 2 ≤ j.val → (call L s c).bafl_H i j = 0 := by
  intro i j hj
  cases c with
  | align lp => exact h i j hj
  | propagate g => exact h i j hj
  | update_accel a =>
    show (booz_ahrs_update_accel L s a).bafl_H i j = 0
    rw [update_accel_H, update_H_high_cols _ _ _ _ hj]
    exact h i j hj
  | update_mag m =>
    show (booz_ahrs_update_mag L s m).bafl_H i j = 0
    rw [update_mag_H, update_H_high_cols _ _ _ _ hj]
    exact h i j hj

/-- Every sequence of calls keeps columns 2-5 of `H` zero. -/
theorem run_H_high_cols (L : FloatAlgebra α) (cs : List (Call α)) :
    ∀ s : Bafl α, (∀ i j, 2 ≤ j.val → s.bafl_H i j = 0) →
      ∀ i j, 2 ≤ j.val → (run L s cs).bafl_H i j = 0 := by
  induction cs with
  | nil => intro s h; exact h
  | cons c cs ih =>
    intro s h
    exact ih (call L s c) (call_H_high_cols L s c h)

/-- Every call keeps the status `BOOZ_AHRS_RUNNING`. -/
theorem call_status (L : FloatAlgebra α) (s : Bafl α) (c : Call α)
    (h : s.status = AhrsStatus.BOOZ_AHRS_RUNNING) :
    (call L s c).status = AhrsStatus.BOOZ_AHRS_RUNNING := by
  cases c with
  | align lp => rfl
  | propagate g => exact h
  | update_accel a => exact h
  | update_mag m => exact h

/-- Every sequence of calls keeps the status `BOOZ_AHRS_RUNNING`. -/
theorem run_status (L : FloatAlgebra α) (cs : List (Call α)) :
    ∀ s : Bafl α, s.status = AhrsStatus.BOOZ_AHRS_RUNNING →
      (run L s cs).status = AhrsStatus.BOOZ_AHRS_RUNNING := by
  induction cs with
  | nil => intro s h; exact h
  | cons c cs ih =>
    intro s h
    exact ih (call L s c) (call_status L s c h)

/-- No call writes column 0 of `K`. -/
theorem call_K_col_zero (L : FloatAlgebra α) (s : Bafl α) (c : Call α) (i : Fin 6) :
    (call L s c).bafl_K i 0 = s.bafl_K i 0 := by
  cases c with
  | align lp => rfl
  | propagate g => rfl
  | update_accel a =>
    show (booz_ahrs_update_accel L s a).bafl_K i 0 = s.bafl_K i 0
    rw [update_accel_K, update_K_col_zero]
  | update_mag m =>
    show (booz_ahrs_update_mag L s m).bafl_K i 0 = s.bafl_K i 0
    rw [update_mag_K, update_K_col_zero]

/-- No sequence of calls writes column 0 of `K`. -/
theorem run_K_col_zero (L : FloatAlgebra α) (cs : List (Call α)) :
    ∀ (s : Bafl α) (i : Fin 6), (run L s cs).bafl_K i 0 = s.bafl_K i 0 := by
  induction cs with
  | nil => intro s i; rfl
  | cons c cs ih =>
    intro s i
    show (run L (call L s c) cs).bafl_K i 0 = s.bafl_K i 0
    rw [ih (call L s c) i, call_K_col_zero]

/-! ### The claims -/

/-- C1 (as amended): when the determinant of the innovation covariance `S` computed by
`update_accel` is exactly zero, the call leaves `bafl_invS` as it was and still computes the
gain from that old value; if moreover the old `bafl_invS` and column 0 of `bafl_K` are all
zero, the call sets `K` and `X` to zero, leaves `P` and the bias unchanged and composes the
quaternion with the error quaternion `(sqrtf(1), 0, 0, 0)`. -/
theorem C1_singular_S_keeps_invS (L : FloatAlgebra α) (s : Bafl α) (accel : FloatVect3 α)
    (hdet : update_detS (booz_ahrs_update_accel L s accel).bafl_S = 0) :
    (booz_ahrs_update_accel L s accel).bafl_invS = s.bafl_invS ∧
    (booz_ahrs_update_accel L s accel).bafl_K =
      update_K (booz_ahrs_update_accel L s accel).bafl_tempK s.bafl_invS s.bafl_K ∧
    (s.bafl_invS = 0 → (∀ i, s.bafl_K i 0 = 0) →
      (booz_ahrs_update_accel L s accel).bafl_K = 0 ∧
      (booz_ahrs_update_accel L s accel).bafl_X = 0 ∧
      (booz_ahrs_update_accel L s accel).bafl_P = s.bafl_P ∧
      (booz_ahrs_update_accel L s accel).bafl_bias = s.bafl_bias ∧
      (booz_ahrs_update_accel L s accel).bafl_quat =
        L.FLOAT_QUAT_COMP s.bafl_quat ⟨L.sqrtf 1, 0, 0, 0⟩) := by
  have hinv : (booz_ahrs_update_accel L s accel).bafl_invS = s.bafl_invS := by
    rw [update_accel_invS, update_invS_of_det_zero _ _ hdet]
  have hK : (booz_ahrs_update_accel L s accel).bafl_K =
      update_K (booz_ahrs_update_accel L s accel).bafl_tempK s.bafl_invS s.bafl_K := by
    rw [update_accel_K, hinv]
  refine ⟨hinv, hK, ?_⟩
  intro h0 hcol
  have hK0 : (booz_ahrs_update_accel L s accel).bafl_K = 0 := by
    rw [hK, h0, update_K_zero _ _ hcol]
  have hX : (booz_ahrs_update_accel L s accel).bafl_X = 0 := by
    rw [update_accel_X, hK0]
    ext i
    simp [update_X]
  refine ⟨hK0, hX, ?_, ?_, ?_⟩
  · rw [update_accel_P, hK0, update_P_zero_gain]
  · rw [update_accel_bias, hX]
    simp [RATES_SUB]
  · rw [update_accel_quat, update_accel_quat_err, hX, update_quat_err_zero]

/-- C1, an instance: from `singularFresh` the determinant of `S` is zero, and the call
leaves `bafl_invS` and `bafl_P` as they were. -/
theorem C1_singular_S_witness :
    update_detS (booz_ahrs_update_accel ratAlgebra singularFresh accelTilted).bafl_S = (0 : ℚ) ∧
    (booz_ahrs_update_accel ratAlgebra singularFresh accelTilted).bafl_invS
      = singularFresh.bafl_invS ∧
    (booz_ahrs_update_accel ratAlgebra singularFresh accelTilted).bafl_P
      = singularFresh.bafl_P :=
  ⟨by decide!,
   (C1_singular_S_keeps_invS ratAlgebra singularFresh accelTilted (by decide!)).1,
   ((C1_singular_S_keeps_invS ratAlgebra singularFresh accelTilted (by decide!)).2.2
      (by decide!) (by decide!)).2.2.1⟩

/-- C1 as stated fails: from `singularState` with the sample `accelTilted` the determinant of
`S` is exactly zero, and yet the call changes `P`, `X` and the bias. -/
theorem C1_singular_S_changes_state :
    update_detS (booz_ahrs_update_accel ratAlgebra singularState accelTilted).bafl_S = (0 : ℚ) ∧
    (booz_ahrs_update_accel ratAlgebra singularState accelTilted).bafl_P ≠ singularState.bafl_P ∧
    (booz_ahrs_update_accel ratAlgebra singularState accelTilted).bafl_X ≠ singularState.bafl_X ∧
    (booz_ahrs_update_accel ratAlgebra singularState accelTilted).bafl_bias
      ≠ singularState.bafl_bias := by
  decide!

/-- C2, evaluated: after `init`, a `propagate` at `(1024, 1024, 0)` rad/s and a `propagate` at
rest, `update_accel` computes an `S` with nonzero determinant, and the `bafl_invS` it stores
is neither a right nor a left inverse of that `S`. -/
theorem C2_invS_not_inverse :
    update_detS (booz_ahrs_update_accel ratAlgebra runTurned accelAtRest).bafl_S ≠ (0 : ℚ) ∧
    (booz_ahrs_update_accel ratAlgebra runTurned accelAtRest).bafl_S *
      (booz_ahrs_update_accel ratAlgebra runTurned accelAtRest).bafl_invS ≠ 1 ∧
    (booz_ahrs_update_accel ratAlgebra runTurned accelAtRest).bafl_invS *
      (booz_ahrs_update_accel ratAlgebra runTurned accelAtRest).bafl_S ≠ 1 := by
  decide!

/-- C3, evaluated: after `init` and two `propagate` calls at rest, `update_accel` leaves
`K[1][0]` at zero although the entry `[1][0]` of `P_apriori·Hᵗ·invS`, for the values that
call stored, is not zero. -/
theorem C3_gain_column_zero_not_computed :
    (booz_ahrs_update_accel ratAlgebra runAtRest accelAtRest).bafl_K 1 0 = 0 ∧
    ((booz_ahrs_update_accel ratAlgebra runAtRest accelAtRest).bafl_Pprio *
      Matrix.transpose (booz_ahrs_update_accel ratAlgebra runAtRest accelAtRest).bafl_H *
      (booz_ahrs_update_accel ratAlgebra runAtRest accelAtRest).bafl_invS) 1 0 ≠ 0 := by
  decide!

/-- C4: if the covariance `P` is all zero before `propagate`, then after it `P[i][i]` is
`bafl_Q_gyro = 0.008` for `i = 3, 4, 5` and every other entry of `P` is zero, for every
quaternion, bias, gyro sample and transition matrix. -/
theorem C4_propagate_from_zero_covariance (L : FloatAlgebra α) (s : Bafl α)
    (gyro : FloatRates α) (hP : s.bafl_P = 0) :
    ∀ i j : Fin 6, (booz_ahrs_propagate L s gyro).bafl_P i j =
      if 3 ≤ i.val ∧ i = j then (8 / 1000 : α) else 0 := by
  intro i j
  rw [propagate_P_field, propagate_P_eq_mul, propagate_tempP_eq_mul, hP, Matrix.mul_zero,
    Matrix.zero_mul, zero_add, propagate_Qd]
  by_cases h : i = j
  · subst h
    simp [Matrix.diagonal_apply_eq, bafl_Q_gyro]
  · simp [Matrix.diagonal_apply_ne _ h, h]

/-- C4, an instance: the state after `init` has `P = 0`, and one `propagate` with the
rate `(1, 2, 3)` gives the covariance `diag(0, 0, 0, 0.008, 0.008, 0.008)`. -/
theorem C4_propagate_from_zero_witness :
    (afterInit.bafl_P = 0) ∧
    ∀ i j : Fin 6, (booz_ahrs_propagate ratAlgebra afterInit ⟨1, 2, 3⟩).bafl_P i j =
      if 3 ≤ i.val ∧ i = j then (8 / 1000 : ℚ) else 0 :=
  ⟨rfl, C4_propagate_from_zero_covariance ratAlgebra afterInit ⟨1, 2, 3⟩ rfl⟩

/-- C5: the covariance after `propagate` is `T·P_before·Tᵗ + Qd`, with `T` the transition
matrix stored by that call and `Qd = diag(0, 0, 0, Q, Q, Q)`, `Q = bafl_Q_gyro`. -/
theorem C5_propagate_covariance (L : FloatAlgebra α) (s : Bafl α) (gyro : FloatRates α) :
    (booz_ahrs_propagate L s gyro).bafl_P =
      (booz_ahrs_propagate L s gyro).bafl_T * s.bafl_P *
        Matrix.transpose (booz_ahrs_propagate L s gyro).bafl_T + propagate_Qd ∧
    (propagate_Qd : Matrix (Fin 6) (Fin 6) α) =
      Matrix.diagonal ![0, 0, 0, bafl_Q_gyro, bafl_Q_gyro, bafl_Q_gyro] := by
  constructor
  · rw [propagate_P_field, propagate_P_eq_mul, propagate_tempP_eq_mul]
  · unfold propagate_Qd
    funext i
    fin_cases i <;> rfl

/-- C6, evaluated: after `init` and one `propagate` at rest the rotation matrix has
`dcm[0][0] = 1` and the transition matrix has `T[0][3] = -1`, not `-BAFL_DT·dcm[0][0] =
-1/512`. -/
theorem C6_T_block_without_dt :
    (booz_ahrs_propagate ratAlgebra afterInit ⟨0, 0, 0⟩).bafl_dcm 0 0 = 1 ∧
    (booz_ahrs_propagate ratAlgebra afterInit ⟨0, 0, 0⟩).bafl_T 0 3 = -1 ∧
    - (BAFL_DT : ℚ) * (booz_ahrs_propagate ratAlgebra afterInit ⟨0, 0, 0⟩).bafl_dcm 0 0
      = - 1 / 512 := by
  decide!

/-- C7: with the quaternion derivative as the spec describes it, if the converted gyro rate
equals the bias, `propagate` stores a zero `qdot` and leaves the attitude quaternion as it
was. -/
theorem C7_zero_rate_keeps_quaternion (L : FloatAlgebra α)
    (hL : L.FLOAT_QUAT_DERIVATIVE_LAGRANGE = quat_derivative_spec)
    (s : Bafl α) (gyro : FloatRates α) (hrate : gyro = s.bafl_bias) :
    (booz_ahrs_propagate L s gyro).bafl_qdot = ⟨0, 0, 0, 0⟩ ∧
    (booz_ahrs_propagate L s gyro).bafl_quat = s.bafl_quat := by
  have hq : (booz_ahrs_propagate L s gyro).bafl_qdot = ⟨0, 0, 0, 0⟩ := by
    rw [propagate_qdot_field, hL, hrate]
    simp [RATES_SUB, quat_derivative_spec, QUAT_SMUL]
  refine ⟨hq, ?_⟩
  rw [propagate_quat_field, hq]
  simp [QUAT_ADD]

/-- C7, an instance: the quaternion `(1, 1, 1, 0)` of `runTurned`, aligned to the bias
`(3, -2, 5)`, is unchanged by a `propagate` with the gyro rate `(3, -2, 5)`. -/
theorem C7_zero_rate_witness :
    (⟨3, -2, 5⟩ : FloatRates ℚ) = (booz_ahrs_align runTurned ⟨3, -2, 5⟩).bafl_bias ∧
    (booz_ahrs_propagate ratAlgebra (booz_ahrs_align runTurned ⟨3, -2, 5⟩) ⟨3, -2, 5⟩).bafl_quat
      = (booz_ahrs_align runTurned ⟨3, -2, 5⟩).bafl_quat :=
  ⟨rfl, (C7_zero_rate_keeps_quaternion ratAlgebra rfl
      (booz_ahrs_align runTurned ⟨3, -2, 5⟩) ⟨3, -2, 5⟩ rfl).2⟩

/-- C8, evaluated: the state after `init` has `P = 0`, and after a `propagate` at
`(1024, 1024, 0)` rad/s, a `propagate` at rest and one `update_accel` the covariance has
`P[0][1] ≠ P[1][0]`. -/
theorem C8_covariance_not_symmetric :
    afterInit.bafl_P = 0 ∧
    (booz_ahrs_update_accel ratAlgebra runTurned accelAtRest).bafl_P 0 1 ≠
      (booz_ahrs_update_accel ratAlgebra runTurned accelAtRest).bafl_P 1 0 := by
  decide!

/-- C9, evaluated over the reals: for `X = (0, 0, 3, 0, 0, 0)`, where `|X[0..2]|²/4 = 9/4`
exceeds 1, the error quaternion built by lines 453-467 is `(1, 0, 0, 3/2)`, the result of the
small-angle branch, and its squared norm is `13/4`. -/
theorem C9_error_quat_not_unit :
    ((0 : ℝ) * 0 + 0 * 0 + 3 * 3) / 4 > 1 ∧
    update_quat_err Real.sqrt ![0, 0, 3, 0, 0, 0] = ⟨1, 0, 0, 3 / 2⟩ ∧
    quat_norm_sq (update_quat_err Real.sqrt ![0, 0, 3, 0, 0, 0]) = 13 / 4 := by
  have h : update_quat_err Real.sqrt ![0, 0, 3, 0, 0, 0] = ⟨1, 0, 0, 3 / 2⟩ := by
    simp [update_quat_err, update_q_sq]
  refine ⟨by norm_num, h, ?_⟩
  rw [h]
  norm_num [quat_norm_sq]

/-- C10, evaluated over the reals: for `X = (0, 0, 1, 0, 0, 0)`, where `|X[0..2]|²/4 = 1/4`,
the error quaternion built by lines 453-467 is `(1, 0, 0, 1/2)`: its scalar part is not
`√(1 − 1/4)` and its squared norm is `5/4`. -/
theorem C10_small_angle_scalar_part :
    ((0 : ℝ) * 0 + 0 * 0 + 1 * 1) / 4 ≤ 1 ∧
    update_quat_err Real.sqrt ![0, 0, 1, 0, 0, 0] = ⟨1, 0, 0, 1 / 2⟩ ∧
    (1 : ℝ) ≠ Real.sqrt (1 - (0 * 0 + 0 * 0 + 1 * 1) / 4) ∧
    quat_norm_sq (update_quat_err Real.sqrt ![0, 0, 1, 0, 0, 0]) = 5 / 4 := by
  have h : update_quat_err Real.sqrt ![0, 0, 1, 0, 0, 0] = ⟨1, 0, 0, 1 / 2⟩ := by
    simp [update_quat_err, update_q_sq]
  refine ⟨by norm_num, h, ?_, ?_⟩
  · intro hs
    have h2 : Real.sqrt (1 - (0 * 0 + 0 * 0 + 1 * 1) / 4) ^ 2 = 1 - (0 * 0 + 0 * 0 + 1 * 1) / 4 :=
      Real.sq_sqrt (by norm_num)
    rw [← hs] at h2
    norm_num at h2
  · rw [h]
    norm_num [quat_norm_sq]

/-- C11 (as amended): in a state whose stored `bafl_accel` is the converted current
accelerometer sample, `update_mag` and `update_accel` compute the same Jacobian `H`, the same
innovation `y` and the same a-priori covariance, but `update_mag` writes `BAFL_R_MAG = 90000`
where `update_accel` writes `BAFL_R_ACCEL = 25`: the two `S` differ by `(90000 - 25)·I₃`. -/
theorem C11_update_mag_uses_R_MAG (L : FloatAlgebra α) (s : Bafl α) (accel mag : FloatVect3 α)
    (haccel : s.bafl_accel = accel) :
    (booz_ahrs_update_mag L s mag).bafl_H = (booz_ahrs_update_accel L s accel).bafl_H ∧
    (booz_ahrs_update_mag L s mag).bafl_y = (booz_ahrs_update_accel L s accel).bafl_y ∧
    (booz_ahrs_update_mag L s mag).bafl_Pprio = (booz_ahrs_update_accel L s accel).bafl_Pprio ∧
    (∀ i j : Fin 3, (booz_ahrs_update_mag L s mag).bafl_S i j =
      (booz_ahrs_update_accel L s accel).bafl_S i j + if i = j then (90000 - 25 : α) else 0) := by
  refine ⟨rfl, ?_, rfl, ?_⟩
  · rw [update_mag_y, update_accel_y, haccel]
  · intro i j
    rw [update_mag_S, update_accel_S, update_mag_H, update_accel_H,
      update_S_diagonal BAFL_R_ACCEL BAFL_R_MAG]
    norm_num [BAFL_R_MAG, BAFL_R_ACCEL]

/-- C11, an instance: `runCorrected` stores the sample `accelAtRest`, and `update_mag` with
any magnetometer sample computes the innovation of `update_accel` with `accelAtRest`. -/
theorem C11_update_mag_witness :
    runCorrected.bafl_accel = accelAtRest ∧
    (booz_ahrs_update_mag ratAlgebra runCorrected magSample).bafl_y
      = (booz_ahrs_update_accel ratAlgebra runCorrected accelAtRest).bafl_y :=
  ⟨rfl, (C11_update_mag_uses_R_MAG ratAlgebra runCorrected accelAtRest magSample rfl).2.1⟩

/-- C11 as stated fails: `runCorrected` stores the sample `accelAtRest`, and yet `update_mag`
and `update_accel` with that sample end with different covariances `P`. -/
theorem C11_update_mag_differs :
    runCorrected.bafl_accel = accelAtRest ∧
    (booz_ahrs_update_mag ratAlgebra runCorrected magSample).bafl_P ≠
      (booz_ahrs_update_accel ratAlgebra runCorrected accelAtRest).bafl_P := by
  decide!

/-- C12: for every state and every two magnetometer samples, the two runs of `update_mag`
end with the same `P`, `X`, quaternion, bias and rotation matrix; the results differ in the
stored copy `bafl_mag` only. -/
theorem C12_mag_sample_not_read (L : FloatAlgebra α) (s : Bafl α) (mag1 mag2 : FloatVect3 α) :
    (booz_ahrs_update_mag L s mag1).bafl_P = (booz_ahrs_update_mag L s mag2).bafl_P ∧
    (booz_ahrs_update_mag L s mag1).bafl_X = (booz_ahrs_update_mag L s mag2).bafl_X ∧
    (booz_ahrs_update_mag L s mag1).bafl_quat = (booz_ahrs_update_mag L s mag2).bafl_quat ∧
    (booz_ahrs_update_mag L s mag1).bafl_bias = (booz_ahrs_update_mag L s mag2).bafl_bias ∧
    (booz_ahrs_update_mag L s mag1).bafl_dcm = (booz_ahrs_update_mag L s mag2).bafl_dcm ∧
    booz_ahrs_update_mag L s mag1 = { booz_ahrs_update_mag L s mag2 with bafl_mag := mag1 } :=
  ⟨rfl, rfl, rfl, rfl, rfl, rfl⟩

/-- C13: after `init` and any finite sequence of `align`, `propagate`, `update_accel` and
`update_mag` calls, columns 2-5 of `H` are zero; and right after `update_accel` columns 0 and 1
are `H[i][0] = -g·dcm[i][1]` and `H[i][1] = g·dcm[i][0]`, with `dcm` the rotation matrix at entry
to the call and `g = 9.81`. -/
theorem C13_jacobian_columns (L : FloatAlgebra α) (s : Bafl α) (cs : List (Call α))
    (accel : FloatVect3 α) :
    (∀ i j, 2 ≤ j.val → (run L (booz_ahrs_init s) cs).bafl_H i j = 0) ∧
    (∀ i, (booz_ahrs_update_accel L s accel).bafl_H i 0 = - ((981 / 100) * s.bafl_dcm i 1)) ∧
    (∀ i, (booz_ahrs_update_accel L s accel).bafl_H i 1 = (981 / 100) * s.bafl_dcm i 0) := by
  refine ⟨run_H_high_cols L cs _ (fun _ _ _ => rfl), ?_, ?_⟩
  · intro i
    rw [update_accel_H]
    simp [update_H, bafl_g]
    ring
  · intro i
    rw [update_accel_H]
    simp [update_H, bafl_g]
    ring

/-- C14: in every state in which columns 2-5 of `H` are zero, the `S` computed by
`update_accel` is the full product `H·P_apriori·Hᵗ` plus `25·I₃`, for the `H` and `P_apriori`
that call stored. -/
theorem C14_innovation_covariance (L : FloatAlgebra α) (s : Bafl α) (accel : FloatVect3 α)
    (hH : ∀ i j, 2 ≤ j.val → s.bafl_H i j = 0) :
    (booz_ahrs_update_accel L s accel).bafl_S =
      (booz_ahrs_update_accel L s accel).bafl_H * (booz_ahrs_update_accel L s accel).bafl_Pprio *
        Matrix.transpose (booz_ahrs_update_accel L s accel).bafl_H +
      (25 : α) • (1 : Matrix (Fin 3) (Fin 3) α) := by
  have hH2 : ∀ i j, 3 ≤ j.val → (booz_ahrs_update_accel L s accel).bafl_H i j = 0 := by
    intro i j hj
    rw [update_accel_H, update_H_high_cols _ _ _ _ (by omega)]
    exact hH i j (by omega)
  rw [update_accel_S, update_accel_Pprio, update_S_eq_mul _ _ _ hH2]
  norm_num [BAFL_R_ACCEL]

/-- C14, an instance: in `runTurned` columns 2-5 of `H` are zero, and `update_accel` computes
`S = H·P_apriori·Hᵗ + 25·I₃`. -/
theorem C14_innovation_covariance_witness :
    (∀ i j, 2 ≤ j.val → runTurned.bafl_H i j = (0 : ℚ)) ∧
    (booz_ahrs_update_accel ratAlgebra runTurned accelAtRest).bafl_S =
      (booz_ahrs_update_accel ratAlgebra runTurned accelAtRest).bafl_H *
        (booz_ahrs_update_accel ratAlgebra runTurned accelAtRest).bafl_Pprio *
        Matrix.transpose (booz_ahrs_update_accel ratAlgebra runTurned accelAtRest).bafl_H +
      (25 : ℚ) • (1 : Matrix (Fin 3) (Fin 3) ℚ) :=
  ⟨fun _ _ _ => rfl,
   C14_innovation_covariance ratAlgebra runTurned accelAtRest (fun _ _ _ => rfl)⟩

/-- C15: in every state in which columns 3-5 of `H` are zero, the covariance after
`update_accel` is `(I₆ - K·H)·P_apriori`, with `P_apriori` the `P` at entry to the call and
`K`, `H` the gain and Jacobian that call stored. -/
theorem C15_covariance_update (L : FloatAlgebra α) (s : Bafl α) (accel : FloatVect3 α)
    (hH : ∀ i j, 3 ≤ j.val → s.bafl_H i j = 0) :
    (booz_ahrs_update_accel L s accel).bafl_P =
      (1 - (booz_ahrs_update_accel L s accel).bafl_K * (booz_ahrs_update_accel L s accel).bafl_H)
        * s.bafl_P := by
  have hH2 : ∀ i j, 3 ≤ j.val → (booz_ahrs_update_accel L s accel).bafl_H i j = 0 := by
    intro i j hj
    rw [update_accel_H, update_H_high_cols _ _ _ _ (by omega)]
    exact hH i j hj
  rw [update_accel_P, update_P_eq_mul, update_tempP_eq _ _ hH2]

/-- C15, an instance: in `runTurned` columns 3-5 of `H` are zero, and `update_accel` leaves
`P = (I₆ - K·H)·P_apriori`. -/
theorem C15_covariance_update_witness :
    (∀ i j, 3 ≤ j.val → runTurned.bafl_H i j = (0 : ℚ)) ∧
    (booz_ahrs_update_accel ratAlgebra runTurned accelAtRest).bafl_P =
      (1 - (booz_ahrs_update_accel ratAlgebra runTurned accelAtRest).bafl_K *
        (booz_ahrs_update_accel ratAlgebra runTurned accelAtRest).bafl_H) * runTurned.bafl_P :=
  ⟨fun _ _ _ => rfl,
   C15_covariance_update ratAlgebra runTurned accelAtRest (fun _ _ _ => rfl)⟩

/-- C16 (as amended): in `update_accel` the innovation is the reference vector `(0, 0, -g)`
rotated into the body frame by the rotation matrix at entry, minus the measured accelerometer
vector: `y_i = -g·dcm[i][2] - accel_i` with `g = 9.81`. -/
theorem C16_innovation_minus_g (L : FloatAlgebra α) (s : Bafl α) (accel : FloatVect3 α) :
    (booz_ahrs_update_accel L s accel).bafl_y.x = - ((981 / 100) * s.bafl_dcm 0 2) - accel.x ∧
    (booz_ahrs_update_accel L s accel).bafl_y.y = - ((981 / 100) * s.bafl_dcm 1 2) - accel.y ∧
    (booz_ahrs_update_accel L s accel).bafl_y.z = - ((981 / 100) * s.bafl_dcm 2 2) - accel.z := by
  rw [update_accel_y]
  simp only [update_y, bafl_g]
  refine ⟨?_, ?_, ?_⟩ <;> ring

/-- C16 as stated fails: in `runAtRest`, where `dcm[2][2] = 1`, `update_accel` with the
sample `(0, 0, -9.81)` stores `y.z = 0`, not `g·dcm[2][2] - accel.z = 19.62`. -/
theorem C16_innovation_sign :
    runAtRest.bafl_dcm 2 2 = 1 ∧
    (booz_ahrs_update_accel ratAlgebra runAtRest accelAtRest).bafl_y.z = 0 ∧
    (bafl_g : ℚ) * runAtRest.bafl_dcm 2 2 - accelAtRest.z = 981 / 50 ∧
    (booz_ahrs_update_accel ratAlgebra runAtRest accelAtRest).bafl_y.z ≠
      (bafl_g : ℚ) * runAtRest.bafl_dcm 2 2 - accelAtRest.z := by
  decide!

/-- C17 (as amended): from every prior state, after `init` the matrix `T` is the 6×6
identity, `H` is all zero, the quaternion is `(1, 0, 0, 0)` and the status is `UNINIT`, while
`P` and `K` keep the values they had before the call; they are all zero after `init` at
program start. -/
theorem C17_init_writes (s : Bafl α) :
    (booz_ahrs_init s).bafl_T = 1 ∧
    (booz_ahrs_init s).bafl_H = 0 ∧
    (booz_ahrs_init s).bafl_quat = ⟨1, 0, 0, 0⟩ ∧
    (booz_ahrs_init s).status = AhrsStatus.BOOZ_AHRS_UNINIT ∧
    (booz_ahrs_init s).bafl_P = s.bafl_P ∧
    (booz_ahrs_init s).bafl_K = s.bafl_K ∧
    (booz_ahrs_init (powerOn : Bafl α)).bafl_P = 0 ∧
    (booz_ahrs_init (powerOn : Bafl α)).bafl_K = 0 := by
  refine ⟨?_, rfl, rfl, rfl, rfl, rfl, rfl, rfl⟩
  ext i j
  simp [booz_ahrs_init, Matrix.one_apply]

/-- C17 as stated fails: `init` called on `runCorrected`, a state left by two `propagate`
calls and one `update_accel`, leaves both `P` and `K` nonzero. -/
theorem C17_init_keeps_covariance :
    (booz_ahrs_init runCorrected).bafl_P ≠ 0 ∧ (booz_ahrs_init runCorrected).bafl_K ≠ 0 := by
  decide!

/-- C18: `align` sets the status to `RUNNING`; `propagate`, `update_accel` and `update_mag`
leave the status as it is; so from a state with status `RUNNING` every finite sequence of
`align`, `propagate`, `update_accel` and `update_mag` calls ends with status `RUNNING`. -/
theorem C18_status_one_way (L : FloatAlgebra α) (s : Bafl α) (cs : List (Call α))
    (hrun : s.status = AhrsStatus.BOOZ_AHRS_RUNNING) :
    (run L s cs).status = AhrsStatus.BOOZ_AHRS_RUNNING ∧
    (∀ (t : Bafl α) (lp : FloatRates α),
      (booz_ahrs_align t lp).status = AhrsStatus.BOOZ_AHRS_RUNNING) ∧
    (∀ (t : Bafl α) (g : FloatRates α), (booz_ahrs_propagate L t g).status = t.status) ∧
    (∀ (t : Bafl α) (a : FloatVect3 α), (booz_ahrs_update_accel L t a).status = t.status) ∧
    (∀ (t : Bafl α) (m : FloatVect3 α), (booz_ahrs_update_mag L t m).status = t.status) :=
  ⟨run_status L cs s hrun, fun _ _ => rfl, fun _ _ => rfl, fun _ _ => rfl, fun _ _ => rfl⟩

/-- C18, an instance: the aligned state has status `RUNNING`, and so has the state after a
`propagate`, an `update_accel`, an `update_mag`, an `align` and a `propagate`. -/
theorem C18_status_one_way_witness :
    (booz_ahrs_align afterInit ⟨0, 0, 0⟩).status = AhrsStatus.BOOZ_AHRS_RUNNING ∧
    (run ratAlgebra (booz_ahrs_align afterInit ⟨0, 0, 0⟩)
      [Call.propagate ⟨1024, 1024, 0⟩, Call.update_accel accelTilted, Call.update_mag magSample,
       Call.align ⟨1, 0, 0⟩, Call.propagate ⟨0, 0, 0⟩]).status
      = AhrsStatus.BOOZ_AHRS_RUNNING :=
  ⟨rfl, (C18_status_one_way ratAlgebra (booz_ahrs_align afterInit ⟨0, 0, 0⟩) _ rfl).1⟩

/-- C19, evaluated: after `init` at program start the quaternion is `(1, 0, 0, 0)`, whose
rotation matrix is the identity, while the stored `dcm` is still all zero. -/
theorem C19_init_leaves_dcm :
    afterInit.bafl_quat = ⟨1, 0, 0, 0⟩ ∧
    afterInit.bafl_dcm = 0 ∧
    ratAlgebra.FLOAT_RMAT_OF_QUAT afterInit.bafl_quat = 1 ∧
    afterInit.bafl_dcm ≠ ratAlgebra.FLOAT_RMAT_OF_QUAT afterInit.bafl_quat := by
  decide!

/-- C20: if `P` is symmetric before `propagate`, it is symmetric after it, for every
quaternion, bias, gyro sample and transition matrix that the call builds. -/
theorem C20_propagate_keeps_symmetry (L : FloatAlgebra α) (s : Bafl α) (gyro : FloatRates α)
    (hsym : ∀ i j, s.bafl_P i j = s.bafl_P j i) :
    ∀ i j, (booz_ahrs_propagate L s gyro).bafl_P i j =
      (booz_ahrs_propagate L s gyro).bafl_P j i := by
  intro i j
  rw [propagate_P_field, propagate_P_eq_mul, propagate_tempP_eq_mul]
  simp only [Matrix.add_apply, Matrix.mul_apply, Matrix.transpose_apply, Finset.sum_mul]
  rw [propagate_Qd_symm i j, Finset.sum_comm]
  congr 1
  apply Finset.sum_congr rfl
  intro a _
  apply Finset.sum_congr rfl
  intro b _
  rw [hsym a b]
  ring

/-- C20, an instance: the covariance of `runTurned` is symmetric, and so is the covariance
after one more `propagate` with the rate `(3, -2, 5)`. -/
theorem C20_propagate_keeps_symmetry_witness :
    (∀ i j, runTurned.bafl_P i j = runTurned.bafl_P j i) ∧
    ∀ i j, (booz_ahrs_propagate ratAlgebra runTurned ⟨3, -2, 5⟩).bafl_P i j =
      (booz_ahrs_propagate ratAlgebra runTurned ⟨3, -2, 5⟩).bafl_P j i :=
  ⟨by decide!, C20_propagate_keeps_symmetry ratAlgebra runTurned ⟨3, -2, 5⟩ (by decide!)⟩

/-- C21: `update_accel` leaves column 0 of `K` as it was, and so does `init` followed by
any sequence of calls; in every state with `K[i][0] = 0` for all `i`, two runs of
`update_accel` whose samples agree in the y and z components end with the same `X`, `P`,
quaternion, bias and rotation matrix, whatever the x components. -/
theorem C21_accel_x_not_read (L : FloatAlgebra α) (s : Bafl α) (accel1 accel2 : FloatVect3 α)
    (hK : ∀ i, s.bafl_K i 0 = 0) (hy : accel1.y = accel2.y) (hz : accel1.z = accel2.z) :
    (∀ i, (booz_ahrs_update_accel L s accel1).bafl_K i 0 = s.bafl_K i 0) ∧
    (∀ (t : Bafl α) (cs : List (Call α)) (i : Fin 6),
      (run L (booz_ahrs_init t) cs).bafl_K i 0 = t.bafl_K i 0) ∧
    (booz_ahrs_update_accel L s accel1).bafl_X = (booz_ahrs_update_accel L s accel2).bafl_X ∧
    (booz_ahrs_update_accel L s accel1).bafl_P = (booz_ahrs_update_accel L s accel2).bafl_P ∧
    (booz_ahrs_update_accel L s accel1).bafl_quat
      = (booz_ahrs_update_accel L s accel2).bafl_quat ∧
    (booz_ahrs_update_accel L s accel1).bafl_bias
      = (booz_ahrs_update_accel L s accel2).bafl_bias ∧
    (booz_ahrs_update_accel L s accel1).bafl_dcm
      = (booz_ahrs_update_accel L s accel2).bafl_dcm := by
  have hcol : ∀ (a : FloatVect3 α) (i : Fin 6),
      (booz_ahrs_update_accel L s a).bafl_K i 0 = 0 := by
    intro a i
    rw [update_accel_K, update_K_col_zero, hK]
  have hKeq : (booz_ahrs_update_accel L s accel1).bafl_K =
      (booz_ahrs_update_accel L s accel2).bafl_K := rfl
  have hX : (booz_ahrs_update_accel L s accel1).bafl_X =
      (booz_ahrs_update_accel L s accel2).bafl_X := by
    funext i
    rw [update_accel_X, update_accel_X, update_accel_y, update_accel_y]
    simp only [update_X, update_y, hcol, hKeq, zero_mul, hy, hz]
  have hq : (booz_ahrs_update_accel L s accel1).bafl_quat =
      (booz_ahrs_update_accel L s accel2).bafl_quat := by
    rw [update_accel_quat, update_accel_quat, update_accel_quat_err, update_accel_quat_err, hX]
  refine ⟨?_, ?_, hX, rfl, hq, ?_, ?_⟩
  · intro i
    rw [update_accel_K, update_K_col_zero]
  · intro t cs i
    rw [run_K_col_zero]
    rfl
  · rw [update_accel_bias, update_accel_bias, hX]
  · rw [update_accel_dcm, update_accel_dcm, hq]

/-- C21, an instance: in `runTurned` column 0 of `K` is zero, the samples `accelPushed` and
`accelAtRest` differ in the x component only, and `update_accel` ends with the same `X` for
both. -/
theorem C21_accel_x_not_read_witness :
    (∀ i, runTurned.bafl_K i 0 = 0) ∧ accelPushed.y = accelAtRest.y ∧
    accelPushed.z = accelAtRest.z ∧ accelPushed.x ≠ accelAtRest.x ∧
    (booz_ahrs_update_accel ratAlgebra runTurned accelPushed).bafl_X =
      (booz_ahrs_update_accel ratAlgebra runTurned accelAtRest).bafl_X :=
  ⟨fun _ => rfl, rfl, rfl, by decide!,
   (C21_accel_x_not_read ratAlgebra runTurned accelPushed accelAtRest
      (fun _ => rfl) rfl rfl).2.2.1⟩

end Theorems

end BoozAhrsLkf
